import Mathlib

/-! Verification of `pynasparser` (src/pynasparser/py_nas_parser.py).

The file shallowly embeds the extraction engine of `AX_Extract`:
string helpers (URN namespace removal, CRS name formatting), the
lifecycle timestamp helper, the geometry sanitizer, the seven entity
extractors with their Python local-variable loop semantics, and the
`__post_init__` construction sequence.  Python exceptions are embedded
as values of `PyResult`, Python `None` as `Option.none`, Python floats
as exact rationals (only parsing and the zero test of division matter
here, which rationals model exactly).
-/

namespace PyNasParser

/-- Truthiness of a Python string-or-None value: `None` and the empty
string are falsy, every other string is truthy. -/
def truthy : Option String → Bool
  | none => false
  | some s => !(s == "")

/-- Python `str.replace(old, new)` on character lists, with explicit fuel
so the definition is structurally recursive (hence kernel-reducible).
Scans left to right, replacing non-overlapping occurrences of `pat`.
The fuel is always instantiated with the length of the scanned list,
which suffices because every step consumes at least one character when
`pat` is nonempty (all uses in the source have a nonempty pattern). -/
def pyReplaceFuel (pat rep : List Char) : Nat → List Char → List Char
  | _, [] => []
  | 0, l => l
  | Nat.succ f, c :: cs =>
    if pat.isPrefixOf (c :: cs) then
      rep ++ pyReplaceFuel pat rep f ((c :: cs).drop pat.length)
    else
      c :: pyReplaceFuel pat rep f cs

/-- Python `s.replace(pat, rep)` (nonempty `pat`). -/
def pyReplace (pat rep s : List Char) : List Char :=
  pyReplaceFuel pat rep s.length s

/-- The `ID_NAMESPACE` constant of the source module. -/
def ID_NAMESPACE : String := "urn:adv:oid:"

/-- The `CRS_NAMESPACE` constant of the source module. -/
def CRS_NAMESPACE : String := "urn:adv:crs:"

/-- Model of `AX_Extract.remove_gml_id_prefix`: if the string starts with
`ID_NAMESPACE` then `string.replace(ID_NAMESPACE, "")`, else the string
unchanged.  Note that Python `replace` removes every occurrence, not
just the leading one. -/
def removeGmlIdNs (s : String) : String :=
  if ID_NAMESPACE.data.isPrefixOf s.data then
    String.mk (pyReplace ID_NAMESPACE.data [] s.data)
  else s

/-- Model of `AX_Extract.remove_crs_prefix`: same shape for `CRS_NAMESPACE`. -/
def removeCrsNs (s : String) : String :=
  if CRS_NAMESPACE.data.isPrefixOf s.data then
    String.mk (pyReplace CRS_NAMESPACE.data [] s.data)
  else s

/-- Result of `AX_Extract.format_crs_name`: the returned string or a raised
`ValueError` carrying its message. -/
inductive CrsResult where
  | ok (s : String)
  | formatFail (msg : String)
deriving DecidableEq, Repr

/-- The `re.match` of pattern `^ETRS89_UTM(\d+)$` with `re.IGNORECASE`:
the whole string must be the literal `ETRS89_UTM` (any letter case)
followed by at least one digit; the digit group is returned.  (Python
`\d` also matches non-ASCII decimal digits, which we do not model.) -/
def matchEtrs (s : String) : Option String :=
  let cs := s.data
  let head := cs.take 10
  let rest := cs.drop 10
  if head.map Char.toLower = "etrs89_utm".data ∧ rest ≠ [] ∧ rest.all Char.isDigit then
    some (String.mk rest)
  else
    none

/-- Message of the `ValueError` raised by `format_crs_name` (the Python
source interpolates the offending string with `!r`; the quoting and
escaping of `repr` are elided, the raw string is interpolated). -/
def crsErrMsg (s : String) : String :=
  "String " ++ s ++ " is not in the expected format ETRS89_UTM<number>"

/-- Model of `AX_Extract.format_crs_name`: reformat `ETRS89_UTM<digits>` (matched
case-insensitively) to `ETRS89 / UTM zone <digits>N`; raise `ValueError`
on every other input. -/
def format_crs_name (s : String) : CrsResult :=
  match matchEtrs s with
  | some zone => .ok ("ETRS89 / UTM zone " ++ zone ++ "N")
  | none => .formatFail (crsErrMsg s)

/-- Accumulator pass of Python `str.split()` (split on whitespace runs,
no empty tokens); `acc` is the current token, reversed. -/
def splitWsAux : List Char → List Char → List (List Char)
  | [], acc => if acc = [] then [] else [acc.reverse]
  | c :: cs, acc =>
    if c.isWhitespace then
      if acc = [] then splitWsAux cs [] else acc.reverse :: splitWsAux cs []
    else
      splitWsAux cs (c :: acc)

/-- Python `str.split()` with no separator argument. -/
def pySplitWs (cs : List Char) : List (List Char) :=
  splitWsAux cs []

/-- Python `str.strip()` with no argument: drop whitespace at both ends. -/
def pyStripWs (cs : List Char) : List Char :=
  ((cs.dropWhile Char.isWhitespace).reverse.dropWhile Char.isWhitespace).reverse

/-- Number of whitespace-delimited coordinate tokens of a `gml:pos` text,
as computed by `pos.text.strip().split()` in `remove_broken_members`. -/
def tokenCount (t : String) : Nat :=
  (pySplitWs (pyStripWs t.data)).length

/-- A position element is malformed when its text is present and splits
into exactly one token (`len(coordinates) == 1`). -/
def posMalformed : Option String → Bool
  | none => false
  | some t => tokenCount t == 1

/-- The scan of one feature member in `remove_broken_members`: iterate the
member's `gml:pos` texts in document order, skip absent texts, and report
removal on the first text with exactly one token (`break`). -/
def memberScan : List (Option String) → Bool
  | [] => false
  | none :: rest => memberScan rest
  | some t :: rest => if tokenCount t == 1 then true else memberScan rest

/-- The `gml:pos` texts the member scan actually inspects: the loop stops
directly after the first malformed position, so later positions never
appear in this list. -/
def scanExamined : List (Option String) → List (Option String)
  | [] => []
  | none :: rest => none :: scanExamined rest
  | some t :: rest => if tokenCount t == 1 then [some t] else some t :: scanExamined rest

/-- An `ax:AX_Flurstueck` feature element: identity attribute, direct child
texts, and `xlink:href` attributes of the reference children. -/
structure FlurstueckElem where
  gmlId : Option String
  flurstueckskennzeichen : Option String
  amtlicheFlaeche : Option String
  zeitpunktDerEntstehung : Option String
  beginnt : Option String
  istGebucht : Option String
  zeigtAuf : Option String
deriving DecidableEq, Repr

/-- An `ax:AX_Person` feature element. -/
structure PersonElem where
  gmlId : Option String
  nachnameOderFirma : Option String
  vorname : Option String
  anrede : Option String
  geburtsname : Option String
  geburtsdatum : Option String
  anlass : Option String
  namensbestandteil : Option String
  akademischerGrad : Option String
  beginnt : Option String
  hat : Option String
deriving DecidableEq, Repr

/-- A child of a nested key-structure element: its qualified tag and text. -/
structure KeyChild where
  tag : String
  text : Option String
deriving DecidableEq, Repr

/-- An `ax:AX_Buchungsblattbezirk` feature element. -/
structure BezirkElem where
  gmlId : Option String
  schluesselGesamt : Option String
  anlass : Option String
  bezeichnung : Option String
  beginnt : Option String
  schluessel : Option (List KeyChild)
  gehoertZu : Option (List KeyChild)
deriving DecidableEq, Repr

/-- An `ax:AX_Buchungsblatt` feature element. -/
structure BlattElem where
  gmlId : Option String
  buchungsblattkennzeichen : Option String
  nummerMitBuchstabenerweiterung : Option String
  blattart : Option String
  anlass : Option String
  beginnt : Option String
  bezirkSchluessel : Option (List KeyChild)
deriving DecidableEq, Repr

/-- An `ax:AX_Anschrift` feature element. -/
structure AnschriftElem where
  gmlId : Option String
  ortsteil : Option String
  anlass : Option String
  tel : Option String
  weitereAdressen : Option String
  beginnt : Option String
  ortPost : Option String
  postleitzahlPostzustellung : Option String
  strasse : Option String
  hausnummer : Option String
deriving DecidableEq, Repr

/-- An `ax:AX_Namensnummer` feature element. -/
structure NamensnummerElem where
  gmlId : Option String
  istBestandteilVon : Option String
  laufendeNummer : Option String
  benennt : Option String
  anlassTitle : Option String
  artDerRechtsgemeinschaft : Option String
  bestehtAus : Option String
  anteilZaehler : Option String
  anteilNenner : Option String
deriving DecidableEq, Repr

/-- An `ax:AX_Buchungsstelle` feature element. -/
structure BuchungsstelleElem where
  gmlId : Option String
  buchungsart : Option String
  laufendeNummer : Option String
  istBestandteilVon : Option String
deriving DecidableEq, Repr

/-- The feature carried by one `wfs:member` / `gml:featureMember`
container (one of the seven extracted types, or anything else). -/
inductive Feature where
  | flurstueck (e : FlurstueckElem)
  | person (e : PersonElem)
  | buchungsblattbezirk (e : BezirkElem)
  | buchungsblatt (e : BlattElem)
  | anschrift (e : AnschriftElem)
  | namensnummer (e : NamensnummerElem)
  | buchungsstelle (e : BuchungsstelleElem)
  | otherFeature
deriving DecidableEq, Repr

/-- One feature-member container under
`//ax:enthaelt/wfs:FeatureCollection`: the feature it contains and the
texts of its descendant `gml:pos` elements in document order. -/
structure Member where
  feature : Feature
  posTexts : List (Option String)
deriving DecidableEq, Repr

/-- Model of `AX_Extract.remove_broken_members`: iterate a snapshot of the member
list and detach from the tree every member whose scan finds a malformed
position; the surviving tree holds exactly the members whose scan found
none. -/
def removeBrokenMembers (ms : List Member) : List Member :=
  ms.filter fun m => !(memberScan m.posTexts)

/-- A timezone-aware-or-naive instant as produced by
`datetime.datetime.fromisoformat`: calendar fields plus an optional UTC
offset in minutes (`none` for a naive datetime). -/
structure PyDateTime where
  year : Nat
  month : Nat
  day : Nat
  hour : Nat
  minute : Nat
  second : Nat
  offsetMinutes : Option Int
deriving DecidableEq, Repr

/-- Read exactly `n` decimal digits from the front of a character list,
returning their value and the remaining characters. -/
def readDigits : Nat → List Char → Option (Nat × List Char)
  | 0, cs => some (0, cs)
  | Nat.succ _, [] => none
  | Nat.succ k, c :: cs =>
    if c.isDigit then
      match readDigits k cs with
      | some (v, rest) => some ((c.toNat - 48) * 10 ^ k + v, rest)
      | none => none
    else none

/-- Expect one given character at the front of the list. -/
def expectChar (c : Char) : List Char → Option (List Char)
  | [] => none
  | d :: rest => if d = c then some rest else none

/-- Parse the optional UTC-offset tail `±HH:MM` of an ISO instant
(an empty tail yields a naive datetime). -/
def parseIsoOffset : List Char → Option (Option Int)
  | [] => some none
  | c :: rest =>
    if c = '+' ∨ c = '-' then do
      let (oh, r1) ← readDigits 2 rest
      let r2 ← expectChar ':' r1
      let (om, r3) ← readDigits 2 r2
      if r3 = [] ∧ oh ≤ 23 ∧ om ≤ 59 then
        let total : Int := (oh * 60 + om : Nat)
        some (some (if c = '-' then -total else total))
      else none
    else none

/-- Model of `datetime.datetime.fromisoformat` restricted to the extended
format `YYYY-MM-DD[<sep>HH:MM:SS[±HH:MM]]` (CPython accepts any single
character as the date/time separator); `none` models the raised
`ValueError`.  Fractional seconds, reduced-precision times and the basic
format are not modelled — all texts relevant here either use the full
extended format or fail to parse in both semantics. -/
def fromIso (s : String) : Option PyDateTime := do
  let (y, r1) ← readDigits 4 s.data
  let r2 ← expectChar '-' r1
  let (mo, r3) ← readDigits 2 r2
  let r4 ← expectChar '-' r3
  let (d, r5) ← readDigits 2 r4
  if ¬(1 ≤ mo ∧ mo ≤ 12 ∧ 1 ≤ d ∧ d ≤ 31) then
    none
  else
    match r5 with
    | [] => some ⟨y, mo, d, 0, 0, 0, none⟩
    | _sep :: r6 => do
      let (h, r7) ← readDigits 2 r6
      let r8 ← expectChar ':' r7
      let (mi, r9) ← readDigits 2 r8
      let r10 ← expectChar ':' r9
      let (sec, r11) ← readDigits 2 r10
      if h ≤ 23 ∧ mi ≤ 59 ∧ sec ≤ 59 then
        let off ← parseIsoOffset r11
        some ⟨y, mo, d, h, mi, sec, off⟩
      else none

/-- Model of `AX_Extract.get_aa_lebenszeitintervall_beginnt`: given the text of the
nested `beginnt` node (`none` when the node is absent or has no text),
replace every literal `Z` by `+00:00`, parse as an ISO instant, and map a
parse failure (the caught `ValueError`) to an absent value.  The function
is total: no exception escapes. -/
def get_aa_lebenszeitintervall_beginnt (beginntText : Option String) : Option PyDateTime :=
  match beginntText with
  | none => none
  | some t =>
    if t = "" then none
    else fromIso (String.mk (pyReplace "Z".data "+00:00".data t.data))

/-- The Python exceptions the extraction code can raise. -/
inductive PyErr where
  | valueError (msg : String)
  | zeroDivisionError
  | unboundLocalError
  | attributeError
deriving DecidableEq, Repr

/-- Result of running a piece of Python code: a value, or a raised
exception propagating to the caller. -/
inductive PyResult (α : Type) where
  | ok (val : α)
  | raised (err : PyErr)
deriving DecidableEq, Repr

/-- Value of a result whose exception was caught and replaced by `None`. -/
def PyResult.toOption {α : Type} : PyResult α → Option α
  | .ok v => some v
  | .raised _ => none

/-- Value of an all-digit character list. -/
def digitsToNat (l : List Char) : Option Nat :=
  if l.all Char.isDigit then
    some (l.foldl (fun a c => 10 * a + (c.toNat - 48)) 0)
  else none

/-- Split a character list at its first dot, if any. -/
def breakAtDot : List Char → List Char × Option (List Char)
  | [] => ([], none)
  | c :: cs =>
    if c = '.' then ([], some cs)
    else
      let r := breakAtDot cs
      (c :: r.1, r.2)

/-- Model of Python `float(text)` restricted to decimal literals
`[+-]digits[.digits]` with surrounding whitespace (exponents, `inf`,
`nan` and underscores are not modelled; no input below uses them).
The value is an exact rational — only parsing success and the zero test
of the later division matter, which rationals model exactly. -/
def pyFloatParse (s : String) : Option ℚ :=
  let cs := pyStripWs s.data
  let signed : Bool × List Char :=
    match cs with
    | c :: rest =>
      if c = '-' then (true, rest) else if c = '+' then (false, rest) else (false, cs)
    | [] => (false, [])
  let applySign : ℚ → ℚ := fun q => if signed.1 then -q else q
  match breakAtDot signed.2 with
  | (intPart, none) =>
    match digitsToNat intPart with
    | none => none
    | some i => if intPart = [] then none else some (applySign i)
  | (intPart, some fracPart) =>
    if fracPart.contains '.' then none
    else
      match digitsToNat intPart, digitsToNat fracPart with
      | some i, some f =>
        if intPart = [] ∧ fracPart = [] then none
        else some (applySign ((i : ℚ) + (f : ℚ) / 10 ^ fracPart.length))
      | _, _ => none

/-- Python `float(text)`: a rational, or a raised `ValueError`. -/
def pyFloat (s : String) : PyResult ℚ :=
  match pyFloatParse s with
  | some q => .ok q
  | none => .raised (.valueError ("could not convert string to float: " ++ s))

/-- One row of the scalar parcel table built by
`get_ax_flurstueck_data` before the geometry merge. -/
structure FlurstueckRow where
  ax_flurstueck_id : String
  flurstueckskennzeichen : Option String
  amtliche_flaeche : Option ℚ
  ax_buchungsstelle_id : Option String
  ax_lagebezeichnung_ohne_hausnummer_id : Option String
  zeitpunktDerEntstehung : Option String
  aa_lebenszeitintervall_beginnt : Option PyDateTime
deriving DecidableEq, Repr

/-- One iteration of the `get_ax_flurstueck_data` loop: skip the element
when its identity attribute is falsy, otherwise build the row.  The
identity is stored as read; only the two `xlink:href` cross-references
get the URN prefix removed.  An unparseable area text is logged and
treated as absent (`except ValueError`). -/
def flurstueckRow (e : FlurstueckElem) : Option FlurstueckRow :=
  if truthy e.gmlId = false then none
  else
    some
      { ax_flurstueck_id := e.gmlId.getD ""
        flurstueckskennzeichen := e.flurstueckskennzeichen
        amtliche_flaeche :=
          match e.amtlicheFlaeche with
          | none => none
          | some t => (pyFloat t).toOption
        ax_buchungsstelle_id := e.istGebucht.map removeGmlIdNs
        ax_lagebezeichnung_ohne_hausnummer_id := e.zeigtAuf.map removeGmlIdNs
        zeitpunktDerEntstehung := e.zeitpunktDerEntstehung
        aa_lebenszeitintervall_beginnt := get_aa_lebenszeitintervall_beginnt e.beginnt }

/-- Model of `AX_Extract.get_flurstueck_geometry`: the external decoder reads the
raw bytes of the parcel layer into `(identifier, geometry)` rows; the
identifier column is renamed to the parcel id field and every id value
is prefix-stripped.  (The CRS assignment tags the whole frame and has no
per-row content.) -/
def get_flurstueck_geometry (layer : List (String × String)) : List (String × String) :=
  layer.map fun row => (removeGmlIdNs row.1, row.2)

/-- Model of `gdf_buf.merge(df, on="ax_flurstueck_id")`: the pandas inner join on
the parcel id column — for each left row, in order, one combined row per
right row with the same key. -/
def mergeOnId (geo : List (String × String)) (rows : List FlurstueckRow) :
    List (String × String × FlurstueckRow) :=
  geo.flatMap fun g =>
    (rows.filter fun r => r.ax_flurstueck_id == g.1).map fun r => (g.1, g.2, r)

/-- Model of `AX_Extract.get_ax_flurstueck_data`: raise when no parcel elements
match (both query paths empty), otherwise build the scalar rows and
inner-join them onto the geometry buffer. -/
def get_ax_flurstueck_data (gdfBuf : List (String × String))
    (elems : List FlurstueckElem) : PyResult (List (String × String × FlurstueckRow)) :=
  if elems = [] then
    .raised (.valueError "No AX_Flurstueck elements found in the provided XML file.")
  else
    .ok (mergeOnId gdfBuf (elems.filterMap flurstueckRow))

/-- One row of the person table. -/
structure PersonRow where
  ax_person_id : String
  nachname_oder_firma : Option String
  vorname : Option String
  anrede : Option String
  namensbestandteil : Option String
  akademischer_grad : Option String
  geburtsname : Option String
  geburtsdatum : Option String
  ax_anschrift_id : Option String
  aa_lebenszeitintervall_beginnt : Option PyDateTime
  anlass : Option String
deriving DecidableEq, Repr

/-- The Python locals of the `get_ax_person_data` loop.  `identifier` is
declared without an initial value in the source, so `none` here models
the unbound local (reading it raises `UnboundLocalError`); the other
locals start bound to `None`. -/
structure PersonState where
  identifier : Option String
  nachname_oder_firma : Option String
  vorname : Option String
  anrede : Option String
  namensbestandteil : Option String
  akademischer_grad : Option String
  geburtsname : Option String
  geburtsdatum : Option String
  ax_anschrift_id : Option String
  aa_lebenszeitintervall_beginnt : Option PyDateTime
  anlass : Option String
deriving DecidableEq, Repr

/-- Initial person-loop locals. -/
def personInitState : PersonState :=
  ⟨none, none, none, none, none, none, none, none, none, none, none⟩

/-- One pass of the person loop body up to the append: every assignment
sits inside `if gml_id:`, so an element with a falsy identity leaves all
locals at their previous values. -/
def personStep (st : PersonState) (e : PersonElem) : PersonState :=
  if truthy e.gmlId then
    { identifier := e.gmlId
      nachname_oder_firma := e.nachnameOderFirma
      vorname := e.vorname
      anrede := e.anrede
      namensbestandteil := e.namensbestandteil
      akademischer_grad := e.akademischerGrad
      geburtsname := e.geburtsname
      geburtsdatum := e.geburtsdatum
      ax_anschrift_id :=
        match e.hat with
        | none => none
        | some a => if truthy (some a) then some (removeGmlIdNs a) else some a
      aa_lebenszeitintervall_beginnt := get_aa_lebenszeitintervall_beginnt e.beginnt
      anlass := e.anlass }
  else st

/-- The unconditional appends at the end of the person loop body: they
read the current locals, whichever element set them. -/
def personAppend (st : PersonState) : PyResult PersonRow :=
  match st.identifier with
  | none => .raised .unboundLocalError
  | some g =>
    .ok ⟨g, st.nachname_oder_firma, st.vorname, st.anrede, st.namensbestandteil,
      st.akademischer_grad, st.geburtsname, st.geburtsdatum, st.ax_anschrift_id,
      st.aa_lebenszeitintervall_beginnt, st.anlass⟩

/-- The person loop over all matched elements. -/
def personGo (st : PersonState) : List PersonElem → PyResult (List PersonRow)
  | [] => .ok []
  | e :: es =>
    let st2 := personStep st e
    match personAppend st2 with
    | .raised er => .raised er
    | .ok r =>
      match personGo st2 es with
      | .raised er => .raised er
      | .ok rs => .ok (r :: rs)

/-- Model of `AX_Extract.get_ax_person_data`. -/
def get_ax_person_data (elems : List PersonElem) : PyResult (List PersonRow) :=
  if elems = [] then
    .raised (.valueError "No AX_Person elements found in the provided XML file.")
  else personGo personInitState elems

/-- Last-write-wins scan of a key-structure element's children: each child
whose qualified tag ends in the given suffix overwrites the variable with
its text (possibly `None`). -/
def lastKeyMatch (sfx : String) (children : List KeyChild) : Option String :=
  children.foldl (fun acc c => if sfx.data.isSuffixOf c.tag.data then c.text else acc) none

/-- One row of the ledger-district table. -/
structure BezirkRow where
  ax_buchungsblattbezirk_id : Option String
  schluessel_gesamt : Option String
  bbz_bezeichnung : Option String
  ax_buchungsblattbezirk_schluessel_land : Option String
  ax_buchungsblattbezirk_schluessel_bezirk : Option String
  gehoert_zu_ax_dienststelle_schluessel_stelle : Option String
  ax_dienststelle_schluessel_land : Option String
  ax_dienststelle_schluessel_stelle : Option String
  aa_lebenszeitintervall_beginnt : Option PyDateTime
  anlass : Option String
deriving DecidableEq, Repr

/-- One iteration of `get_ax_buchungsblattbezirk_data`: no identity check
at all — the identifier is appended as read, possibly absent.  Both the
`stelle` column and its `gehoert_zu` twin receive the same value, as in
the source. -/
def bezirkRow (e : BezirkElem) : BezirkRow :=
  let land := match e.schluessel with
    | none => none
    | some cs => lastKeyMatch "land" cs
  let bez := match e.schluessel with
    | none => none
    | some cs => lastKeyMatch "bezirk" cs
  let dLand := match e.gehoertZu with
    | none => none
    | some cs => lastKeyMatch "land" cs
  let dStelle := match e.gehoertZu with
    | none => none
    | some cs => lastKeyMatch "stelle" cs
  { ax_buchungsblattbezirk_id := e.gmlId
    schluessel_gesamt := e.schluesselGesamt
    bbz_bezeichnung := e.bezeichnung
    ax_buchungsblattbezirk_schluessel_land := land
    ax_buchungsblattbezirk_schluessel_bezirk := bez
    gehoert_zu_ax_dienststelle_schluessel_stelle := dStelle
    ax_dienststelle_schluessel_land := dLand
    ax_dienststelle_schluessel_stelle := dStelle
    aa_lebenszeitintervall_beginnt := get_aa_lebenszeitintervall_beginnt e.beginnt
    anlass := e.anlass }

/-- Model of `AX_Extract.get_ax_buchungsblattbezirk_data`. -/
def get_ax_buchungsblattbezirk_data (elems : List BezirkElem) : PyResult (List BezirkRow) :=
  if elems = [] then
    .raised (.valueError "No AX_Buchungsblattbezirk elements found in the provided XML file.")
  else .ok (elems.map bezirkRow)

/-- One row of the ledger table. -/
structure BlattRow where
  ax_buchungsblatt_id : Option String
  buchungsblattkennzeichen : Option String
  land : Option String
  bezirk : Option String
  schluessel_gesamt : Option String
  blattart : Option String
  buchungsblattnummer_mit_buchstabenerweiterung : Option String
  aa_lebenszeitintervall_beginnt : Option PyDateTime
  anlass : Option String
deriving DecidableEq, Repr

/-- The child loop of `get_ax_buchungsblatt_data` over the district-key
children: `land` and `bezirk` are last-write-wins; the combined key is
recomputed inside the loop each time both are truthy. -/
def blattKeyFold (children : List KeyChild) : Option String × Option String × Option String :=
  children.foldl
    (fun st c =>
      let land := if "land".data.isSuffixOf c.tag.data then c.text else st.1
      let bez := if "bezirk".data.isSuffixOf c.tag.data then c.text else st.2.1
      let sg :=
        if truthy land && truthy bez then some (land.getD "" ++ bez.getD "") else st.2.2
      (land, bez, sg))
    (none, none, none)

/-- One iteration of `get_ax_buchungsblatt_data`: again no identity
check; one row per matched element. -/
def blattRow (e : BlattElem) : BlattRow :=
  let keys := match e.bezirkSchluessel with
    | none => ((none : Option String), (none : Option String), (none : Option String))
    | some cs => blattKeyFold cs
  { ax_buchungsblatt_id := e.gmlId
    buchungsblattkennzeichen := e.buchungsblattkennzeichen
    land := keys.1
    bezirk := keys.2.1
    schluessel_gesamt := keys.2.2
    blattart := e.blattart
    buchungsblattnummer_mit_buchstabenerweiterung := e.nummerMitBuchstabenerweiterung
    aa_lebenszeitintervall_beginnt := get_aa_lebenszeitintervall_beginnt e.beginnt
    anlass := e.anlass }

/-- Model of `AX_Extract.get_ax_buchungsblatt_data`. -/
def get_ax_buchungsblatt_data (elems : List BlattElem) : PyResult (List BlattRow) :=
  if elems = [] then
    .raised (.valueError "No AX_Buchungsblatt elements found in the provided XML file.")
  else .ok (elems.map blattRow)

/-- One row of the address table. -/
structure AnschriftRow where
  ax_anschrift_id : String
  ort_post : Option String
  postleitzahl_postzustellung : Option String
  strasse : Option String
  hausnummer : Option String
  aa_lebenszeitintervall_beginnt : Option PyDateTime
  ortsteil : Option String
  anlass : Option String
  tel : Option String
  weitere_adressen : Option String
deriving DecidableEq, Repr

/-- One iteration of `get_ax_anschrift_data`: skip on falsy identity,
otherwise all fields come fresh from the element. -/
def anschriftRow (e : AnschriftElem) : Option AnschriftRow :=
  if truthy e.gmlId = false then none
  else
    some
      { ax_anschrift_id := e.gmlId.getD ""
        ort_post := e.ortPost
        postleitzahl_postzustellung := e.postleitzahlPostzustellung
        strasse := e.strasse
        hausnummer := e.hausnummer
        aa_lebenszeitintervall_beginnt := get_aa_lebenszeitintervall_beginnt e.beginnt
        ortsteil := e.ortsteil
        anlass := e.anlass
        tel := e.tel
        weitere_adressen := e.weitereAdressen }

/-- Model of `AX_Extract.get_ax_anschrift_data`. -/
def get_ax_anschrift_data (elems : List AnschriftElem) : PyResult (List AnschriftRow) :=
  if elems = [] then
    .raised (.valueError "No AX_Anschrift elements found in the provided XML file.")
  else .ok (elems.filterMap anschriftRow)

/-- One row of the name-entry table. -/
structure NamensnummerRow where
  ax_namensnummer_id : String
  ax_person_id : Option String
  laufende_nummer : Option String
  ax_buchungsblatt_id : Option String
  anlass : Option String
  art_der_rechtsgemeinschaft : Option String
  besteht_aus_rechtsverhaeltnissen_zu : Option String
  anteil : ℚ
deriving DecidableEq, Repr

/-- One iteration of `get_ax_namensnummer_data`: skip on falsy identity;
all locals are reset at the top of the loop (the ratio to `1.0`); when
both share texts are present they are converted with `float` (an
unparseable text raises `ValueError`) and divided — division by zero
raises `ZeroDivisionError`, unguarded. -/
def namensnummerRowRes (e : NamensnummerElem) : PyResult (Option NamensnummerRow) :=
  if truthy e.gmlId = false then .ok none
  else
    let base : NamensnummerRow :=
      { ax_namensnummer_id := e.gmlId.getD ""
        ax_person_id := e.benennt.map removeGmlIdNs
        laufende_nummer := e.laufendeNummer
        ax_buchungsblatt_id := e.istBestandteilVon.map removeGmlIdNs
        anlass := e.anlassTitle
        art_der_rechtsgemeinschaft := e.artDerRechtsgemeinschaft
        besteht_aus_rechtsverhaeltnissen_zu := e.bestehtAus.map removeGmlIdNs
        anteil := 1 }
    match e.anteilZaehler, e.anteilNenner with
    | some zt, some nt =>
      (match pyFloat zt with
       | .raised er => .raised er
       | .ok z =>
         match pyFloat nt with
         | .raised er => .raised er
         | .ok n =>
           if n = 0 then .raised .zeroDivisionError
           else .ok (some { base with anteil := z / n }))
    | _, _ => .ok (some base)

/-- The name-entry loop: a skip contributes nothing, a raised exception
propagates, a row is appended in document order. -/
def namensnummerGo : List NamensnummerElem → PyResult (List NamensnummerRow)
  | [] => .ok []
  | e :: es =>
    match namensnummerRowRes e with
    | .raised er => .raised er
    | .ok none => namensnummerGo es
    | .ok (some r) =>
      match namensnummerGo es with
      | .raised er => .raised er
      | .ok rs => .ok (r :: rs)

/-- Model of `AX_Extract.get_ax_namensnummer_data`. -/
def get_ax_namensnummer_data (elems : List NamensnummerElem) : PyResult (List NamensnummerRow) :=
  if elems = [] then
    .raised (.valueError "No AX_Namensnummer elements found in the provided XML file.")
  else namensnummerGo elems

/-- One row of the booking-entry table. -/
structure BuchungsstelleRow where
  ax_buchungsstelle_id : String
  buchungsart : Option String
  laufende_nummer : Option String
  ax_buchungsblatt_id : Option String
deriving DecidableEq, Repr

/-- The `get_ax_buchungsstelle_data` loop.  The local
`ax_buchungsblatt_id` is declared without an initial value and is never
reset inside the loop: the state argument is `none` while the local is
unbound (reading it raises `UnboundLocalError`) and `some v` once bound,
so an element without an `istBestandteilVon` reference appends the value
left over from a previously processed element. -/
def buchungsstelleGo : Option (Option String) → List BuchungsstelleElem →
    PyResult (List BuchungsstelleRow)
  | _, [] => .ok []
  | st, e :: es =>
    if truthy e.gmlId = false then buchungsstelleGo st es
    else
      let st2 : Option (Option String) :=
        match e.istBestandteilVon with
        | some v => some (some (removeGmlIdNs v))
        | none => st
      match st2 with
      | none => .raised .unboundLocalError
      | some blattId =>
        match buchungsstelleGo st2 es with
        | .raised er => .raised er
        | .ok rs =>
          .ok ({ ax_buchungsstelle_id := e.gmlId.getD ""
                 buchungsart := e.buchungsart
                 laufende_nummer := e.laufendeNummer
                 ax_buchungsblatt_id := blattId } :: rs)

/-- Model of `AX_Extract.get_ax_buchungsstelle_data`. -/
def get_ax_buchungsstelle_data (elems : List BuchungsstelleElem) :
    PyResult (List BuchungsstelleRow) :=
  if elems = [] then
    .raised (.valueError "No AX_Buchungsstelle elements found in the provided XML file.")
  else buchungsstelleGo none elems

/-- One `ax:AA_Koordinatenreferenzsystemangaben` element: the text of its
`ax:standard` child, and its `ax:crs` child (`none` when the child is
absent, in which case reading `.attrib` raises `AttributeError`) with
that child's optional `xlink:href` attribute. -/
structure CrsAngabe where
  standard : Option String
  crsHref : Option (Option String)
deriving DecidableEq, Repr

/-- Model of `AX_Extract.extract_original_crs_from_xml`: walk the declarations in
document order; the first one whose `standard` text is the literal
`"true"` is authoritative — strip the CRS URN prefix from its reference
target and reformat it, wrapping every formatting failure (including a
missing href) into a raised `ValueError`; with no authoritative
declaration the result is absent. -/
def extract_original_crs : List CrsAngabe → PyResult (Option String)
  | [] => .ok none
  | a :: rest =>
    if a.standard ≠ some "true" then extract_original_crs rest
    else
      match a.crsHref with
      | none => .raised .attributeError
      | some none => .raised (.valueError "error when formatting extracted crs")
      | some (some h) =>
        match format_crs_name (removeCrsNs h) with
        | .ok c => .ok (some c)
        | .formatFail _ => .raised (.valueError "error when formatting extracted crs")

/-- A parsed NAS document: the feature members of its collection, its CRS
declarations, and the `(identifier, geometry)` rows the external decoder
reads off the raw bytes of the parcel layer. -/
structure NasDoc where
  members : List Member
  crsAngaben : List CrsAngabe
  geomLayer : List (String × String)
deriving DecidableEq, Repr

/-- The `ax:AX_Flurstueck` elements among a member list. -/
def flurstueckElems (ms : List Member) : List FlurstueckElem :=
  ms.filterMap fun m =>
    match m.feature with
    | .flurstueck e => some e
    | _ => none

/-- The `ax:AX_Person` elements among a member list. -/
def personElems (ms : List Member) : List PersonElem :=
  ms.filterMap fun m =>
    match m.feature with
    | .person e => some e
    | _ => none

/-- The `ax:AX_Buchungsblattbezirk` elements among a member list. -/
def bezirkElems (ms : List Member) : List BezirkElem :=
  ms.filterMap fun m =>
    match m.feature with
    | .buchungsblattbezirk e => some e
    | _ => none

/-- The `ax:AX_Buchungsblatt` elements among a member list. -/
def blattElems (ms : List Member) : List BlattElem :=
  ms.filterMap fun m =>
    match m.feature with
    | .buchungsblatt e => some e
    | _ => none

/-- The `ax:AX_Anschrift` elements among a member list. -/
def anschriftElems (ms : List Member) : List AnschriftElem :=
  ms.filterMap fun m =>
    match m.feature with
    | .anschrift e => some e
    | _ => none

/-- The `ax:AX_Namensnummer` elements among a member list. -/
def namensnummerElems (ms : List Member) : List NamensnummerElem :=
  ms.filterMap fun m =>
    match m.feature with
    | .namensnummer e => some e
    | _ => none

/-- The `ax:AX_Buchungsstelle` elements among a member list. -/
def buchungsstelleElems (ms : List Member) : List BuchungsstelleElem :=
  ms.filterMap fun m =>
    match m.feature with
    | .buchungsstelle e => some e
    | _ => none

/-- The finished extract: the CRS display name and the seven tables, as
assigned by a completed `__post_init__`. -/
structure AxExtract where
  crs_name : Option String
  ax_flurstueck : List (String × String × FlurstueckRow)
  ax_person : List PersonRow
  ax_buchungsblattbezirk : List BezirkRow
  ax_buchungsblatt : List BlattRow
  ax_anschrift : List AnschriftRow
  ax_namensnummer : List NamensnummerRow
  ax_buchungsstelle : List BuchungsstelleRow
deriving DecidableEq, Repr

/-- Model of `AX_Extract.__post_init__` from the parsed tree on: extract the CRS,
decode the parcel geometry from the raw bytes, then sanitize the tree in
place (`remove_broken_members`), then run the seven entity extractors on
the sanitized tree in the source's fixed order.  The first exception
raised at any stage escapes initialization and no extract is produced. -/
def postInitExtract (doc : NasDoc) : PyResult AxExtract :=
  match extract_original_crs doc.crsAngaben with
  | .raised er => .raised er
  | .ok crsName =>
    let gdfBuf := get_flurstueck_geometry doc.geomLayer
    let ms := removeBrokenMembers doc.members
    match get_ax_flurstueck_data gdfBuf (flurstueckElems ms) with
    | .raised er => .raised er
    | .ok tFlurstueck =>
      match get_ax_person_data (personElems ms) with
      | .raised er => .raised er
      | .ok tPerson =>
        match get_ax_buchungsblattbezirk_data (bezirkElems ms) with
        | .raised er => .raised er
        | .ok tBezirk =>
          match get_ax_buchungsblatt_data (blattElems ms) with
          | .raised er => .raised er
          | .ok tBlatt =>
            match get_ax_anschrift_data (anschriftElems ms) with
            | .raised er => .raised er
            | .ok tAnschrift =>
              match get_ax_namensnummer_data (namensnummerElems ms) with
              | .raised er => .raised er
              | .ok tNamensnummer =>
                match get_ax_buchungsstelle_data (buchungsstelleElems ms) with
                | .raised er => .raised er
                | .ok tBuchungsstelle =>
                  .ok ⟨crsName, tFlurstueck, tPerson, tBezirk, tBlatt,
                       tAnschrift, tNamensnummer, tBuchungsstelle⟩

/-- The stages of `AX_Extract.__post_init__`, in the source's statement
order. -/
inductive InitStep where
  | getNamespaces
  | parseXml
  | extractCrs
  | decodeGeometry
  | removeBroken
  | extractFlurstueck
  | extractPerson
  | extractBezirk
  | extractBlatt
  | extractAnschrift
  | extractNamensnummer
  | extractBuchungsstelle
deriving DecidableEq, Repr

/-- The statement order of `__post_init__`: namespaces, tree parse, CRS,
geometry decode (line 39), sanitizer (line 41), then the seven entity
extractors. -/
def postInitOrder : List InitStep :=
  [.getNamespaces, .parseXml, .extractCrs, .decodeGeometry, .removeBroken,
   .extractFlurstueck, .extractPerson, .extractBezirk, .extractBlatt,
   .extractAnschrift, .extractNamensnummer, .extractBuchungsstelle]

/-- Identifier column of an optional parcel row. -/
def flurIdOf : Option FlurstueckRow → Option String
  | none => none
  | some r => some r.ax_flurstueck_id

/-- Concrete parcel element with a prefix-carrying booking reference. -/
def c2wElem : FlurstueckElem :=
  ⟨some "F1", none, none, none, none, some "urn:adv:oid:B7", none⟩

/-- The row `flurstueckRow` builds from `c2wElem`. -/
def c2wRow : FlurstueckRow :=
  ⟨"F1", none, none, some "B7", none, none, none⟩

/-- Concrete person element carrying an identity attribute. -/
def c3pElem1 : PersonElem :=
  ⟨some "P1", some "Alpha", none, none, none, none, none, none, none, none, none⟩

/-- Concrete person element without an identity attribute. -/
def c3pElem2 : PersonElem :=
  ⟨none, some "Beta", none, none, none, none, none, none, none, none, none⟩

/-- The row built from `c3pElem1`. -/
def c3pRow : PersonRow :=
  ⟨"P1", some "Alpha", none, none, none, none, none, none, none, none, none⟩

/-- Concrete ledger-district element without an identity attribute. -/
def c3bezElem : BezirkElem := ⟨none, none, none, none, none, none, none⟩

/-- The row built from `c3bezElem`: its identifier column is absent. -/
def c3bezRow : BezirkRow :=
  ⟨none, none, none, none, none, none, none, none, none, none⟩

/-- Concrete booking entry with a prefix-carrying ledger reference. -/
def c4bst1 : BuchungsstelleElem := ⟨some "B1", none, none, some "urn:adv:oid:L1"⟩

/-- Concrete booking entry without a ledger reference. -/
def c4bst2 : BuchungsstelleElem := ⟨some "B2", none, none, none⟩

/-- The row built from `c4bst1`. -/
def c4row1 : BuchungsstelleRow := ⟨"B1", none, none, some "L1"⟩

/-- The row the loop builds from `c4bst2` right after `c4bst1`: the ledger
reference is the stale value of the unreset local. -/
def c4row2 : BuchungsstelleRow := ⟨"B2", none, none, some "L1"⟩

/-- Concrete two-entry geometry buffer. -/
def c9geo : List (String × String) := [("A", "geomA"), ("Z", "geomZ")]

/-- Concrete parcel element with identity `A`. -/
def c9elem : FlurstueckElem := ⟨some "A", none, none, none, none, none, none⟩

/-- The scalar row built from `c9elem`. -/
def c9row : FlurstueckRow := ⟨"A", none, none, none, none, none, none⟩

/-- Concrete name entry whose share denominator text parses to zero. -/
def c10nnElem : NamensnummerElem :=
  ⟨some "N1", none, none, none, none, none, none, some "1", some "0"⟩

/-- A document holding one feature of each of the seven types, whose only
name entry is `c10nnElem`. -/
def c10doc : NasDoc :=
  { members :=
      [⟨.flurstueck ⟨some "F1", none, none, none, none, none, none⟩, []⟩,
       ⟨.person ⟨some "P1", none, none, none, none, none, none, none, none, none, none⟩, []⟩,
       ⟨.buchungsblattbezirk ⟨some "D1", none, none, none, none, none, none⟩, []⟩,
       ⟨.buchungsblatt ⟨some "L1", none, none, none, none, none, none⟩, []⟩,
       ⟨.anschrift ⟨some "A1", none, none, none, none, none, none, none, none, none⟩, []⟩,
       ⟨.namensnummer c10nnElem, []⟩,
       ⟨.buchungsstelle ⟨some "S1", none, none, some "urn:adv:oid:L1"⟩, []⟩]
    crsAngaben := []
    geomLayer := [] }

/-- The person row of `c10doc`. -/
def c10pRow : PersonRow :=
  ⟨"P1", none, none, none, none, none, none, none, none, none, none⟩

/-- The ledger-district row of `c10doc`. -/
def c10bezRow : BezirkRow :=
  ⟨some "D1", none, none, none, none, none, none, none, none, none⟩

/-- The ledger row of `c10doc`. -/
def c10blattRow : BlattRow :=
  ⟨some "L1", none, none, none, none, none, none, none, none⟩

/-- The address row of `c10doc`. -/
def c10ansRow : AnschriftRow :=
  ⟨"A1", none, none, none, none, none, none, none, none, none⟩

end PyNasParser

open PyNasParser

/-- C5 counterexample.  The claim asserts `strip(strip(x)) == strip(x)` for
every string.  It fails: `replace` removes all occurrences of the prefix,
and the removals can splice together a fresh occurrence of the prefix, so a
second application strips again.  At the explicit input below the first
application yields `"urn:adv:oid:"` and the second yields `""`. -/
theorem c5_idempotence_counterexample :
    removeGmlIdNs "urn:adv:oid:urn:urn:adv:oid:adv:oid:" = "urn:adv:oid:" ∧
    removeGmlIdNs (removeGmlIdNs "urn:adv:oid:urn:urn:adv:oid:adv:oid:") = "" ∧
    ("" : String) ≠ "urn:adv:oid:" := by
  refine ⟨?_, ?_, ?_⟩ <;> decide

/-- C5 (amended): the URN-prefix stripping function is total (it is a plain
function on strings); every string that does not carry the prefix is
returned unchanged; and it is idempotent at every string whose stripped
result does not itself begin with the prefix (full idempotence fails, see
the counterexample). -/
theorem c5_strip_props :
    (∀ x : String, ID_NAMESPACE.data.isPrefixOf x.data = false →
      removeGmlIdNs x = x) ∧
    (∀ x : String, ID_NAMESPACE.data.isPrefixOf (removeGmlIdNs x).data = false →
      removeGmlIdNs (removeGmlIdNs x) = removeGmlIdNs x) := by
  have base : ∀ x : String, ID_NAMESPACE.data.isPrefixOf x.data = false →
      removeGmlIdNs x = x := by
    intro x h
    simp [removeGmlIdNs, h]
  exact ⟨base, fun x h => base (removeGmlIdNs x) h⟩

/-- C5 witness: the amended theorem applied at concrete inputs. -/
theorem c5_strip_props_witness :
    removeGmlIdNs "something_else" = "something_else" ∧
    removeGmlIdNs (removeGmlIdNs "urn:adv:oid:foobar") = removeGmlIdNs "urn:adv:oid:foobar" := by
  exact ⟨c5_strip_props.1 "something_else" (by decide),
         c5_strip_props.2 "urn:adv:oid:foobar" (by decide)⟩

/-- C7: CRS name formatting is total on its regex domain and fails outside
it.  For every `n` in `1..60`, formatting `"ETRS89_UTM{n}"` (also in lower
case, the pattern being matched case-insensitively) returns
`"ETRS89 / UTM zone {n}N"`, and every string not matching
`ETRS89_UTM<digits>` yields a raised `ValueError` whose message includes
the offending string. -/
theorem c7_crs_format :
    (∀ n : Nat, 1 ≤ n → n ≤ 60 →
      format_crs_name ("ETRS89_UTM" ++ toString n)
          = CrsResult.ok ("ETRS89 / UTM zone " ++ toString n ++ "N") ∧
      format_crs_name ("etrs89_utm" ++ toString n)
          = CrsResult.ok ("ETRS89 / UTM zone " ++ toString n ++ "N")) ∧
    (∀ s : String, matchEtrs s = none →
      format_crs_name s = CrsResult.formatFail (crsErrMsg s) ∧
      s.data <:+: (crsErrMsg s).data) := by
  constructor
  · have H : ∀ n : Nat, n < 61 → 1 ≤ n →
        format_crs_name ("ETRS89_UTM" ++ toString n)
            = CrsResult.ok ("ETRS89 / UTM zone " ++ toString n ++ "N") ∧
        format_crs_name ("etrs89_utm" ++ toString n)
            = CrsResult.ok ("ETRS89 / UTM zone " ++ toString n ++ "N") := by
      decide
    intro n h1 h2
    exact H n (by omega) h1
  · intro s h
    refine ⟨by simp [format_crs_name, h], ?_⟩
    refine ⟨"String ".data, " is not in the expected format ETRS89_UTM<number>".data, ?_⟩
    simp [crsErrMsg]

/-- C7 witness: the theorem applied at zone 33 and at a non-matching string. -/
theorem c7_crs_format_witness :
    format_crs_name "ETRS89_UTM33" = CrsResult.ok "ETRS89 / UTM zone 33N" ∧
    format_crs_name "ETRS89-UTM33" = CrsResult.formatFail (crsErrMsg "ETRS89-UTM33") := by
  exact ⟨(c7_crs_format.1 33 (by decide) (by decide)).1,
         (c7_crs_format.2 "ETRS89-UTM33" (by decide)).1⟩

/-- C6: geometry sanitization removes exactly those feature-member
containers that contain at least one position whose text splits into
exactly one whitespace token, and no other containers; and within one
container the scan stops at the first malformed position, never
inspecting the positions after it. -/
theorem c6_sanitizer_exact :
    (∀ ms : List Member,
      removeBrokenMembers ms = ms.filter (fun m => !(m.posTexts.any posMalformed))) ∧
    (∀ pre suf : List (Option String), ∀ t : String,
      (∀ p ∈ pre, posMalformed p = false) → posMalformed (some t) = true →
      scanExamined (pre ++ some t :: suf) = pre ++ [some t]) := by
  have scan_eq : ∀ l : List (Option String), memberScan l = l.any posMalformed := by
    intro l
    induction l with
    | nil => rfl
    | cons p rest ih =>
      cases p with
      | none => simpa [memberScan, posMalformed] using ih
      | some t =>
        by_cases h : tokenCount t == 1 <;>
          simp [memberScan, posMalformed, h, ih]
  constructor
  · intro ms
    have hfun : (fun m : Member => !(memberScan m.posTexts))
        = (fun m : Member => !(m.posTexts.any posMalformed)) :=
      funext fun m => by rw [scan_eq]
    rw [removeBrokenMembers, hfun]
  · intro pre suf t hpre ht
    induction pre with
    | nil =>
      simp only [posMalformed] at ht
      simp [scanExamined, ht]
    | cons p rest ih =>
      have hp : posMalformed p = false := hpre p (by simp)
      have hrest : ∀ q ∈ rest, posMalformed q = false :=
        fun q hq => hpre q (by simp [hq])
      cases p with
      | none => simp [scanExamined, ih hrest]
      | some u =>
        simp only [posMalformed] at hp
        simp [scanExamined, hp, ih hrest]

/-- C6 witness: the early-stop part of the theorem applied to the concrete
position list `["10 20", "42", "30 40"]` (the scan inspects the first two
texts only). -/
theorem c6_sanitizer_exact_witness :
    scanExamined [some "10 20", some "42", some "30 40"] = [some "10 20", some "42"] := by
  exact c6_sanitizer_exact.2 [some "10 20"] [some "30 40"] "42" (by decide) (by decide)

/-- C8: the shared lifecycle-timestamp helper never raises (it is a total
function into an optional instant).  On the nested `beginnt` text
`"2024-10-27T12:34:56Z"` it returns the UTC instant
2024-10-27T12:34:56+00:00 (the trailing `Z` normalized to the `+00:00`
offset), and every text whose `Z`-normalization does not parse as an
ISO-8601 instant yields an absent value instead of an exception. -/
theorem c8_beginnt :
    get_aa_lebenszeitintervall_beginnt (some "2024-10-27T12:34:56Z")
        = some ⟨2024, 10, 27, 12, 34, 56, some 0⟩ ∧
    get_aa_lebenszeitintervall_beginnt (some "not-a-datetime") = none ∧
    (∀ t : String, fromIso (String.mk (pyReplace "Z".data "+00:00".data t.data)) = none →
      get_aa_lebenszeitintervall_beginnt (some t) = none) := by
  refine ⟨by decide, by decide, ?_⟩
  intro t h
  by_cases he : t = ""
  · simp [get_aa_lebenszeitintervall_beginnt, he]
  · simp [get_aa_lebenszeitintervall_beginnt, he, h]

/-- C8 witness: the never-raises part of the theorem applied to a concrete
unparseable text. -/
theorem c8_beginnt_witness :
    get_aa_lebenszeitintervall_beginnt (some "2024-13-99") = none := by
  exact c8_beginnt.2.2 "2024-13-99" (by decide)

/-- C1 counterexample.  The claim asserts that for every input document no
geometry decoding happens until the malformed members have been removed.
In the `__post_init__` statement order the parcel-layer geometry decode
(`get_flurstueck_geometry`, reading the raw bytes) comes strictly before
the sanitizer (`remove_broken_members`), not after it. -/
theorem c1_order_counterexample :
    postInitOrder.indexOf InitStep.decodeGeometry
        < postInitOrder.indexOf InitStep.removeBroken ∧
    ¬ (postInitOrder.indexOf InitStep.removeBroken
        < postInitOrder.indexOf InitStep.decodeGeometry) := by
  refine ⟨?_, ?_⟩ <;> decide

/-- C1 (amended): geometry sanitization runs after the geometry decoding
of the parcel layer (which reads the raw bytes independently of the
tree) but before every one of the seven entity extractions, which read
the sanitized tree. -/
theorem c1_sanitize_order :
    postInitOrder.indexOf InitStep.decodeGeometry
        < postInitOrder.indexOf InitStep.removeBroken ∧
    postInitOrder.indexOf InitStep.removeBroken
        < postInitOrder.indexOf InitStep.extractFlurstueck ∧
    postInitOrder.indexOf InitStep.removeBroken
        < postInitOrder.indexOf InitStep.extractPerson ∧
    postInitOrder.indexOf InitStep.removeBroken
        < postInitOrder.indexOf InitStep.extractBezirk ∧
    postInitOrder.indexOf InitStep.removeBroken
        < postInitOrder.indexOf InitStep.extractBlatt ∧
    postInitOrder.indexOf InitStep.removeBroken
        < postInitOrder.indexOf InitStep.extractAnschrift ∧
    postInitOrder.indexOf InitStep.removeBroken
        < postInitOrder.indexOf InitStep.extractNamensnummer ∧
    postInitOrder.indexOf InitStep.removeBroken
        < postInitOrder.indexOf InitStep.extractBuchungsstelle := by
  refine ⟨?_, ?_, ?_, ?_, ?_, ?_, ?_, ?_⟩ <;> decide

/-- C2 counterexample.  The claim asserts that the stored identifier of an
entity row is the identity attribute with the URN prefix removed.  At a
parcel element whose identity attribute carries the prefix, the stored
identifier keeps the prefix: it differs from the stripped value. -/
theorem c2_id_not_stripped_counterexample :
    flurIdOf (flurstueckRow
        ⟨some "urn:adv:oid:DEBY123", none, none, none, none, none, none⟩)
      = some "urn:adv:oid:DEBY123" ∧
    removeGmlIdNs "urn:adv:oid:DEBY123" = "DEBY123" ∧
    ("urn:adv:oid:DEBY123" : String) ≠ "DEBY123" := by
  refine ⟨?_, ?_, ?_⟩ <;> decide

/-- A string-or-None value is truthy exactly when it is a nonempty string. -/
theorem truthy_eq_true_iff (o : Option String) :
    truthy o = true ↔ ∃ s, o = some s ∧ s ≠ "" := by
  cases o with
  | none => simp [truthy]
  | some s => simp [truthy]

/-- Field characterization of a produced name-entry row: whichever share
path was taken, the identifier is the identity attribute as read and the
three cross-references are the prefix-stripped `xlink:href` values. -/
theorem namensnummerRowRes_fields (e : NamensnummerElem) (r : NamensnummerRow)
    (h : namensnummerRowRes e = .ok (some r)) :
    e.gmlId = some r.ax_namensnummer_id ∧
    r.ax_person_id = e.benennt.map removeGmlIdNs ∧
    r.ax_buchungsblatt_id = e.istBestandteilVon.map removeGmlIdNs ∧
    r.besteht_aus_rechtsverhaeltnissen_zu = e.bestehtAus.map removeGmlIdNs := by
  cases hid : truthy e.gmlId with
  | false => simp [namensnummerRowRes, hid] at h
  | true =>
    obtain ⟨s, hs, hne⟩ := (truthy_eq_true_iff e.gmlId).mp hid
    simp only [namensnummerRowRes, hid, Bool.true_eq_false, if_false] at h
    cases hz : e.anteilZaehler with
    | none =>
      simp only [hz, PyResult.ok.injEq, Option.some.injEq] at h
      rw [← h]
      exact ⟨by simp [hs], rfl, rfl, rfl⟩
    | some zt =>
      cases hn : e.anteilNenner with
      | none =>
        simp only [hz, hn, PyResult.ok.injEq, Option.some.injEq] at h
        rw [← h]
        exact ⟨by simp [hs], rfl, rfl, rfl⟩
      | some nt =>
        simp only [hz, hn] at h
        cases hfz : pyFloat zt with
        | raised er => simp [hfz] at h
        | ok z =>
          cases hfn : pyFloat nt with
          | raised er => simp [hfz, hfn] at h
          | ok n =>
            simp only [hfz, hfn] at h
            by_cases h0 : n = 0
            · simp [h0] at h
            · simp only [h0, if_false, PyResult.ok.injEq, Option.some.injEq] at h
              rw [← h]
              exact ⟨by simp [hs], rfl, rfl, rfl⟩

/-- Invariant of the booking-entry loop: provided the `ax_buchungsblatt_id`
local is unbound or already holds a prefix-stripped href (as it does
initially and after every assignment), every produced row stores its own
element's identity attribute as read, stores the element's own stripped
reference when the element carries one, and in every case stores a value
that is the stripped form of some source href. -/
theorem buchungsstelleGo_rows (elems : List BuchungsstelleElem) :
    ∀ (st : Option (Option String)) (rows : List BuchungsstelleRow),
      (st = none ∨ ∃ v, st = some (some (removeGmlIdNs v))) →
      buchungsstelleGo st elems = .ok rows →
      ∀ r ∈ rows,
        (∃ e ∈ elems, truthy e.gmlId = true ∧ e.gmlId = some r.ax_buchungsstelle_id ∧
          (e.istBestandteilVon ≠ none →
            r.ax_buchungsblatt_id = e.istBestandteilVon.map removeGmlIdNs)) ∧
        ∀ b, r.ax_buchungsblatt_id = some b → ∃ v, b = removeGmlIdNs v := by
  induction elems with
  | nil =>
    intro st rows _ h r hr
    simp only [buchungsstelleGo, PyResult.ok.injEq] at h
    subst h
    simp at hr
  | cons e es ih =>
    intro st rows hst h r hr
    by_cases hid : truthy e.gmlId = false
    · simp only [buchungsstelleGo, hid, if_true] at h
      obtain ⟨⟨e2, he2, hprops⟩, hstrip⟩ := ih st rows hst h r hr
      exact ⟨⟨e2, List.mem_cons_of_mem _ he2, hprops⟩, hstrip⟩
    · have hid2 : truthy e.gmlId = true := by
        cases htv : truthy e.gmlId with
        | false => exact absurd htv hid
        | true => rfl
      obtain ⟨s, hs, hsne⟩ := (truthy_eq_true_iff e.gmlId).mp hid2
      cases hbv : e.istBestandteilVon with
      | some v =>
        cases hrec : buchungsstelleGo (some (some (removeGmlIdNs v))) es with
        | raised er => simp [buchungsstelleGo, hid2, hbv, hrec] at h
        | ok rs =>
          simp only [buchungsstelleGo, hid2, Bool.true_eq_false, if_false, hbv,
            hrec, PyResult.ok.injEq] at h
          subst h
          rcases List.mem_cons.mp hr with hr1 | hr2
          · subst hr1
            refine ⟨⟨e, List.mem_cons_self e es, hid2, by simp [hs],
              fun _ => by simp [hbv]⟩, ?_⟩
            intro b hb
            refine ⟨v, ?_⟩
            simpa using hb.symm
          · obtain ⟨⟨e2, he2, hprops⟩, hstrip⟩ :=
              ih (some (some (removeGmlIdNs v))) rs (Or.inr ⟨v, rfl⟩) hrec r hr2
            exact ⟨⟨e2, List.mem_cons_of_mem _ he2, hprops⟩, hstrip⟩
      | none =>
        rcases hst with hst0 | ⟨v0, hstv⟩
        · subst hst0
          simp [buchungsstelleGo, hid2, hbv] at h
        · subst hstv
          cases hrec : buchungsstelleGo (some (some (removeGmlIdNs v0))) es with
          | raised er => simp [buchungsstelleGo, hid2, hbv, hrec] at h
          | ok rs =>
            simp only [buchungsstelleGo, hid2, Bool.true_eq_false, if_false, hbv,
              hrec, PyResult.ok.injEq] at h
            subst h
            rcases List.mem_cons.mp hr with hr1 | hr2
            · subst hr1
              refine ⟨⟨e, List.mem_cons_self e es, hid2, by simp [hs],
                fun hcon => absurd hbv hcon⟩, ?_⟩
              intro b hb
              refine ⟨v0, ?_⟩
              simpa using hb.symm
            · obtain ⟨⟨e2, he2, hprops⟩, hstrip⟩ :=
                ih (some (some (removeGmlIdNs v0))) rs (Or.inr ⟨v0, rfl⟩) hrec r hr2
              exact ⟨⟨e2, List.mem_cons_of_mem _ he2, hprops⟩, hstrip⟩

/-- C2 (amended): every stored cross-reference id has the URN prefix
stripped, and the parcel ids of the separate geometry table are
stripped, but the identifier stored in an entity row is the identity
attribute exactly as read, without prefix stripping — shown for all
seven extractors (parcel, person, ledger district, ledger, address,
name entry, booking entry) and the geometry layer.  For the booking
entry, whose reference local is never reset (see C4), every stored
reference is still a prefix-stripped href — the element's own one when
it carries one. -/
theorem c2_refs_stripped_ids_verbatim :
    (∀ (e : FlurstueckElem) (r : FlurstueckRow), flurstueckRow e = some r →
      e.gmlId = some r.ax_flurstueck_id ∧
      r.ax_buchungsstelle_id = e.istGebucht.map removeGmlIdNs ∧
      r.ax_lagebezeichnung_ohne_hausnummer_id = e.zeigtAuf.map removeGmlIdNs) ∧
    (∀ (st : PersonState) (e : PersonElem) (r : PersonRow),
      truthy e.gmlId = true → personAppend (personStep st e) = .ok r →
      e.gmlId = some r.ax_person_id ∧
      ∀ a : String, e.hat = some a → a ≠ "" → r.ax_anschrift_id = some (removeGmlIdNs a)) ∧
    (∀ e : BezirkElem, (bezirkRow e).ax_buchungsblattbezirk_id = e.gmlId) ∧
    (∀ e : BlattElem, (blattRow e).ax_buchungsblatt_id = e.gmlId) ∧
    (∀ (e : AnschriftElem) (r : AnschriftRow), anschriftRow e = some r →
      e.gmlId = some r.ax_anschrift_id) ∧
    (∀ (e : NamensnummerElem) (r : NamensnummerRow),
      namensnummerRowRes e = .ok (some r) →
      e.gmlId = some r.ax_namensnummer_id ∧
      r.ax_person_id = e.benennt.map removeGmlIdNs ∧
      r.ax_buchungsblatt_id = e.istBestandteilVon.map removeGmlIdNs ∧
      r.besteht_aus_rechtsverhaeltnissen_zu = e.bestehtAus.map removeGmlIdNs) ∧
    (∀ (elems : List BuchungsstelleElem) (rows : List BuchungsstelleRow),
      get_ax_buchungsstelle_data elems = .ok rows →
      ∀ r ∈ rows,
        (∃ e ∈ elems, truthy e.gmlId = true ∧ e.gmlId = some r.ax_buchungsstelle_id ∧
          (e.istBestandteilVon ≠ none →
            r.ax_buchungsblatt_id = e.istBestandteilVon.map removeGmlIdNs)) ∧
        ∀ b, r.ax_buchungsblatt_id = some b → ∃ v, b = removeGmlIdNs v) ∧
    (∀ layer : List (String × String), ∀ p ∈ layer,
      (removeGmlIdNs p.1, p.2) ∈ get_flurstueck_geometry layer) := by
  refine ⟨?_, ?_, ?_, ?_, ?_, ?_, ?_, ?_⟩
  · intro e r h
    cases hb : truthy e.gmlId with
    | false => simp [flurstueckRow, hb] at h
    | true =>
      obtain ⟨s, hs, hne⟩ := (truthy_eq_true_iff e.gmlId).mp hb
      simp only [flurstueckRow, hb, Bool.true_eq_false, if_false,
        Option.some.injEq] at h
      refine ⟨?_, ?_, ?_⟩
      · rw [← h]; simp [hs]
      · rw [← h]
      · rw [← h]
  · intro st e r hb h
    obtain ⟨s, hs, hne⟩ := (truthy_eq_true_iff e.gmlId).mp hb
    have hts : truthy (some s) = true := by simp [truthy, hne]
    simp only [personStep, hs, hts, if_true, personAppend, PyResult.ok.injEq] at h
    constructor
    · rw [← h, hs]
    · intro a ha hane
      have hta : truthy (some a) = true := by simp [truthy, hane]
      rw [← h]
      simp [ha, hta]
  · intro e
    rfl
  · intro e
    rfl
  · intro e r h
    cases hb : truthy e.gmlId with
    | false => simp [anschriftRow, hb] at h
    | true =>
      obtain ⟨s, hs, hne⟩ := (truthy_eq_true_iff e.gmlId).mp hb
      simp only [anschriftRow, hb, Bool.true_eq_false, if_false,
        Option.some.injEq] at h
      rw [← h]; simp [hs]
  · intro e r h
    exact namensnummerRowRes_fields e r h
  · intro elems rows h
    have hne : elems ≠ [] := by
      intro hcon
      subst hcon
      simp [get_ax_buchungsstelle_data] at h
    simp only [get_ax_buchungsstelle_data, if_neg hne] at h
    exact buchungsstelleGo_rows elems none rows (Or.inl rfl) h
  · intro layer p hp
    exact List.mem_map_of_mem _ hp

/-- C2 witness: the amended theorem applied to a concrete parcel element
whose booking reference carries the URN prefix. -/
theorem c2_refs_stripped_ids_verbatim_witness :
    c2wElem.gmlId = some c2wRow.ax_flurstueck_id ∧
    c2wRow.ax_buchungsstelle_id = c2wElem.istGebucht.map removeGmlIdNs ∧
    c2wRow.ax_lagebezeichnung_ohne_hausnummer_id = c2wElem.zeigtAuf.map removeGmlIdNs :=
  c2_refs_stripped_ids_verbatim.1 c2wElem c2wRow (by decide)

/-- C3 (code bug).  The claim says every extractor logs and skips an
element whose identity attribute is absent, and that the row count is
the number of elements with an identity.  The person loop appends its
rows outside the `if gml_id:` guard, so an id-less person element still
appends a row — built from the stale locals of the previous element —
and an id-less first element reads the never-assigned `identifier`
local, raising `UnboundLocalError`; the ledger-district extractor has no
identity check at all and appends a row with an absent identifier. -/
theorem c3_person_rowcount_bug :
    get_ax_person_data [c3pElem1, c3pElem2] = .ok [c3pRow, c3pRow] ∧
    get_ax_person_data [c3pElem2] = .raised .unboundLocalError ∧
    get_ax_buchungsblattbezirk_data [c3bezElem] = .ok [c3bezRow] := by
  refine ⟨?_, ?_, ?_⟩ <;> decide

/-- C4 (code bug).  The claim says an absent optional source field is
stored as an absent value, never a value carried over from a previously
processed element.  The booking-entry loop never resets its
`ax_buchungsblatt_id` local: an element without an `istBestandteilVon`
reference inherits the previous element's stripped reference (and, as
first element, raises `UnboundLocalError`). -/
theorem c4_stale_crossref_bug :
    get_ax_buchungsstelle_data [c4bst1, c4bst2] = .ok [c4row1, c4row2] ∧
    c4bst2.istBestandteilVon = none ∧
    c4row2.ax_buchungsblatt_id = some "L1" ∧
    get_ax_buchungsstelle_data [c4bst2] = .raised .unboundLocalError := by
  refine ⟨?_, ?_, ?_, ?_⟩ <;> decide

/-- Membership characterization of the pandas inner merge: an id appears
in the merged table exactly when it appears in the geometry table and
some scalar row carries it. -/
theorem mem_mergeOnId_iff (geo : List (String × String)) (rows : List FlurstueckRow)
    (i : String) :
    (∃ g r, (i, g, r) ∈ mergeOnId geo rows) ↔
      ((∃ g, (i, g) ∈ geo) ∧ ∃ r ∈ rows, r.ax_flurstueck_id = i) := by
  constructor
  · rintro ⟨g, r, hmem⟩
    rcases List.mem_flatMap.mp hmem with ⟨p, hp, hin⟩
    rcases List.mem_map.mp hin with ⟨r2, hr2, heq⟩
    rcases List.mem_filter.mp hr2 with ⟨hr2m, hkey⟩
    obtain ⟨h1, h2, h3⟩ : p.1 = i ∧ p.2 = g ∧ r2 = r := by
      simpa [Prod.ext_iff] using heq
    refine ⟨⟨p.2, ?_⟩, r2, hr2m, ?_⟩
    · rw [← h1]; exact hp
    · rw [h1] at hkey
      exact beq_iff_eq.mp hkey
  · rintro ⟨⟨g, hg⟩, r, hr, hid⟩
    refine ⟨g, r, List.mem_flatMap.mpr ⟨(i, g), hg, List.mem_map.mpr ⟨r, ?_, rfl⟩⟩⟩
    exact List.mem_filter.mpr ⟨hr, beq_iff_eq.mpr hid⟩

/-- C9: the final parcel table is the inner join of the geometry table and
the scalar parcel rows on exact parcel id — every id present in both
sides appears in the result, and an id present on only one side
contributes nothing. -/
theorem c9_parcel_join (gdfBuf : List (String × String)) (elems : List FlurstueckElem)
    (tbl : List (String × String × FlurstueckRow))
    (h : get_ax_flurstueck_data gdfBuf elems = .ok tbl) (i : String) :
    (∃ g r, (i, g, r) ∈ tbl) ↔
      ((∃ g, (i, g) ∈ gdfBuf) ∧
        ∃ r ∈ elems.filterMap flurstueckRow, r.ax_flurstueck_id = i) := by
  by_cases he : elems = []
  · simp [get_ax_flurstueck_data, he] at h
  · simp only [get_ax_flurstueck_data, he, if_false] at h
    rcases h with h
    cases h
    exact mem_mergeOnId_iff gdfBuf (elems.filterMap flurstueckRow) i

/-- C9 witness: the theorem applied to a concrete geometry buffer holding
ids `A` and `Z` and a single scalar row for `A`. -/
theorem c9_parcel_join_witness :
    (∃ g r, (("A" : String), g, r)
        ∈ ([("A", "geomA", c9row)] : List (String × String × FlurstueckRow))) ↔
      ((∃ g, (("A" : String), g) ∈ c9geo) ∧
        ∃ r ∈ [c9elem].filterMap flurstueckRow, r.ax_flurstueck_id = "A") :=
  c9_parcel_join c9geo [c9elem] [("A", "geomA", c9row)] (by decide) "A"

/-- A name-entry element whose identity is truthy and whose share texts
are both present, the numerator converting and the denominator
converting to zero, raises `ZeroDivisionError` in its loop iteration. -/
theorem namensnummerRowRes_zeroDiv (e : NamensnummerElem) (zt nt : String) (z : ℚ)
    (hid : truthy e.gmlId = true) (hz : e.anteilZaehler = some zt)
    (hn : e.anteilNenner = some nt) (hzf : pyFloat zt = .ok z)
    (hnf : pyFloat nt = .ok 0) :
    namensnummerRowRes e = .raised .zeroDivisionError := by
  simp [namensnummerRowRes, hid, hz, hn, hzf, hnf]

/-- If every element before `e` completes its iteration without raising,
the name-entry loop propagates the `ZeroDivisionError` of `e`. -/
theorem namensnummerGo_raises (pre suf : List NamensnummerElem) (e : NamensnummerElem)
    (hpre : ∀ x ∈ pre, ∃ v, namensnummerRowRes x = .ok v)
    (he : namensnummerRowRes e = .raised .zeroDivisionError) :
    namensnummerGo (pre ++ e :: suf) = .raised .zeroDivisionError := by
  induction pre with
  | nil => simp [namensnummerGo, he]
  | cons x rest ih =>
    obtain ⟨v, hv⟩ := hpre x (by simp)
    have ih2 := ih fun y hy => hpre y (by simp [hy])
    cases v with
    | none => simp [namensnummerGo, hv, ih2]
    | some r => simp [namensnummerGo, hv, ih2]

/-- C10: a document containing a name entry whose share numerator and
denominator texts are both present and whose denominator parses to zero
makes construction of the extract raise `ZeroDivisionError`, which
escapes initialization, so no extract (and none of its seven tables) is
produced — provided the stages running earlier in `__post_init__`
complete (hypotheses `hcrs` and `h1`–`h5`) and the name entries
processed before the offending one complete their iterations. -/
theorem c10_zero_denominator (doc : NasDoc) (c : Option String)
    (t1 : List (String × String × FlurstueckRow)) (t2 : List PersonRow)
    (t3 : List BezirkRow) (t4 : List BlattRow) (t5 : List AnschriftRow)
    (pre suf : List NamensnummerElem) (e : NamensnummerElem)
    (zt nt : String) (z : ℚ)
    (hcrs : extract_original_crs doc.crsAngaben = .ok c)
    (h1 : get_ax_flurstueck_data (get_flurstueck_geometry doc.geomLayer)
            (flurstueckElems (removeBrokenMembers doc.members)) = .ok t1)
    (h2 : get_ax_person_data (personElems (removeBrokenMembers doc.members)) = .ok t2)
    (h3 : get_ax_buchungsblattbezirk_data
            (bezirkElems (removeBrokenMembers doc.members)) = .ok t3)
    (h4 : get_ax_buchungsblatt_data (blattElems (removeBrokenMembers doc.members)) = .ok t4)
    (h5 : get_ax_anschrift_data (anschriftElems (removeBrokenMembers doc.members)) = .ok t5)
    (hsplit : namensnummerElems (removeBrokenMembers doc.members) = pre ++ e :: suf)
    (hpre : ∀ x ∈ pre, ∃ v, namensnummerRowRes x = .ok v)
    (hid : truthy e.gmlId = true)
    (hz : e.anteilZaehler = some zt) (hn : e.anteilNenner = some nt)
    (hzf : pyFloat zt = .ok z) (hnf : pyFloat nt = .ok 0) :
    postInitExtract doc = .raised .zeroDivisionError := by
  have hrow := namensnummerRowRes_zeroDiv e zt nt z hid hz hn hzf hnf
  have hgo := namensnummerGo_raises pre suf e hpre hrow
  have hnn : get_ax_namensnummer_data (namensnummerElems (removeBrokenMembers doc.members))
      = .raised .zeroDivisionError := by
    rw [hsplit]
    have hne : pre ++ e :: suf ≠ [] := by simp
    simp [get_ax_namensnummer_data, hne, hgo]
  simp [postInitExtract, hcrs, h1, h2, h3, h4, h5, hnn]

/-- C10 witness: the theorem applied to `c10doc`, whose single name entry
has numerator text `"1"` and denominator text `"0"`. -/
theorem c10_zero_denominator_witness :
    postInitExtract c10doc = .raised .zeroDivisionError :=
  c10_zero_denominator c10doc none [] [c10pRow] [c10bezRow] [c10blattRow] [c10ansRow]
    [] [] c10nnElem "1" "0" 1
    (by decide) (by decide) (by decide) (by decide) (by decide) (by decide)
    (by decide) (by simp) (by decide) (by decide) (by decide) (by decide) (by decide)
